import Mathlib

/-!
A shallow embedding of the `jessy` JSON parser (`src/main.rs`) and proofs
about it.  The Rust `Lexer` holds a `Peekable<Chars>` cursor; here every
operation takes the remaining input as a `List Char` and returns the
unconsumed remainder.  Rust `f64` arithmetic is modelled by exact rational
arithmetic (`ℚ`); `Result<T, NextValueError>` becomes
`Except NextValueError T`; and the outer `Option` layer marks executions
that never return a `Result` at all: a Rust panic (the `unwrap` in the
digit branch of `next_number`), the infinite loop reachable in
`expect_next`, or exhaustion of the step budget (`fuel`) that makes the
mutual recursion structural.
-/

namespace Jessy

/-- Exact rational arithmetic modelling the source's `f64` values.  A
value is an integer numerator over a natural denominator, kept
unnormalised so that every operation is a kernel-computable structural
function; `Frac.toRat` reads off the rational number a pair denotes.
Every `f64` operation the parser performs (`*`, `+`, unary `-`, `/`,
`f64::powi(10.0, _)`) is mirrored by one operation here. -/
structure Frac where
  num : Int
  den : Nat
deriving DecidableEq

namespace Frac

/-- Rust `f64` multiplication. -/
def mul (a b : Frac) : Frac := ⟨a.num * b.num, a.den * b.den⟩

/-- Rust `f64` addition. -/
def add (a b : Frac) : Frac := ⟨a.num * b.den + b.num * a.den, a.den * b.den⟩

/-- Rust `f64` negation. -/
def neg (a : Frac) : Frac := ⟨-a.num, a.den⟩

/-- The `f64` value of a small natural number (e.g. a digit). -/
def ofNat (n : Nat) : Frac := ⟨n, 1⟩

/-- The literal `0.1` of the source (`decimal_mult *= 0.1`). -/
def tenth : Frac := ⟨1, 10⟩

/-- Rust `f64` division (the divisors occurring in the parser are the
positive powers of ten produced by `pow10`). -/
def div (a b : Frac) : Frac :=
  if 0 ≤ b.num then ⟨a.num * b.den, a.den * b.num.toNat⟩
  else ⟨-(a.num * b.den), a.den * (-b.num).toNat⟩

/-- The integer `10 ^ k`, by structural recursion. -/
def powTen : Nat → Int
  | 0 => 1
  | k + 1 => 10 * powTen k

/-- Rust `f64::powi(10.0, e)` for an `i32` exponent `e`. -/
def pow10 (e : Int) : Frac :=
  if 0 ≤ e then ⟨powTen e.toNat, 1⟩ else ⟨1, (powTen (-e).toNat).toNat⟩

/-- The rational number a pair denotes. -/
def toRat (a : Frac) : ℚ := (a.num : ℚ) / (a.den : ℚ)

end Frac

/-- The `JsonValue` enum of the source, with `HashMap<String, JsonValue>`
modelled as an association list (see `insertKV` for the `insert`
semantics). -/
inductive JsonValue : Type where
  | boolean (b : Bool)
  | string (s : String)
  | number (n : Frac)
  | array (vs : List JsonValue)
  | object (fields : List (String × JsonValue))
  | null

/-- The `NextValueError` enum of the source: `Eof` and
`ParseError(String)`. -/
inductive NextValueError : Type where
  | eof
  | parseError (msg : String)
deriving DecidableEq

/-- Model of Rust `char::is_ascii_whitespace`: space, horizontal tab,
line feed, form feed, carriage return. -/
def isAsciiWhitespace (c : Char) : Bool :=
  c.toNat = 0x20 || c.toNat = 0x9 || c.toNat = 0xA || c.toNat = 0xC || c.toNat = 0xD

/-- Model of Rust `char::is_whitespace`: the Unicode `White_Space`
property. -/
def rustIsWhitespace (c : Char) : Bool :=
  let n := c.toNat
  (0x9 ≤ n && n ≤ 0xD) || n = 0x20 || n = 0x85 || n = 0xA0 || n = 0x1680 ||
  (0x2000 ≤ n && n ≤ 0x200A) || n = 0x2028 || n = 0x2029 || n = 0x202F ||
  n = 0x205F || n = 0x3000

/-- Interval test on code points, used to transcribe Unicode ranges. -/
def inRange (n lo hi : Nat) : Bool := lo ≤ n && n ≤ hi

/-- The complete code-point ranges of the Unicode general categories
`Nd`, `Nl` and `No` (Unicode 14.0.0) — the set on which Rust's
`char::is_numeric` returns true.  Later Unicode revisions add only a
few supplementary-plane digit ranges, none of which occurs in any
statement below. -/
def numericRanges : List (Nat × Nat) := [
  (0x30, 0x39), (0xB2, 0xB3), (0xB9, 0xB9), (0xBC, 0xBE),
  (0x660, 0x669), (0x6F0, 0x6F9), (0x7C0, 0x7C9), (0x966, 0x96F),
  (0x9E6, 0x9EF), (0x9F4, 0x9F9), (0xA66, 0xA6F), (0xAE6, 0xAEF),
  (0xB66, 0xB6F), (0xB72, 0xB77), (0xBE6, 0xBF2), (0xC66, 0xC6F),
  (0xC78, 0xC7E), (0xCE6, 0xCEF), (0xD58, 0xD5E), (0xD66, 0xD78),
  (0xDE6, 0xDEF), (0xE50, 0xE59), (0xED0, 0xED9), (0xF20, 0xF33),
  (0x1040, 0x1049), (0x1090, 0x1099), (0x1369, 0x137C), (0x16EE, 0x16F0),
  (0x17E0, 0x17E9), (0x17F0, 0x17F9), (0x1810, 0x1819), (0x1946, 0x194F),
  (0x19D0, 0x19DA), (0x1A80, 0x1A89), (0x1A90, 0x1A99), (0x1B50, 0x1B59),
  (0x1BB0, 0x1BB9), (0x1C40, 0x1C49), (0x1C50, 0x1C59), (0x2070, 0x2070),
  (0x2074, 0x2079), (0x2080, 0x2089), (0x2150, 0x2182), (0x2185, 0x2189),
  (0x2460, 0x249B), (0x24EA, 0x24FF), (0x2776, 0x2793), (0x2CFD, 0x2CFD),
  (0x3007, 0x3007), (0x3021, 0x3029), (0x3038, 0x303A), (0x3192, 0x3195),
  (0x3220, 0x3229), (0x3248, 0x324F), (0x3251, 0x325F), (0x3280, 0x3289),
  (0x32B1, 0x32BF), (0xA620, 0xA629), (0xA6E6, 0xA6EF), (0xA830, 0xA835),
  (0xA8D0, 0xA8D9), (0xA900, 0xA909), (0xA9D0, 0xA9D9), (0xA9F0, 0xA9F9),
  (0xAA50, 0xAA59), (0xABF0, 0xABF9), (0xFF10, 0xFF19), (0x10107, 0x10133),
  (0x10140, 0x10178), (0x1018A, 0x1018B), (0x102E1, 0x102FB), (0x10320, 0x10323),
  (0x10341, 0x10341), (0x1034A, 0x1034A), (0x103D1, 0x103D5), (0x104A0, 0x104A9),
  (0x10858, 0x1085F), (0x10879, 0x1087F), (0x108A7, 0x108AF), (0x108FB, 0x108FF),
  (0x10916, 0x1091B), (0x109BC, 0x109BD), (0x109C0, 0x109CF), (0x109D2, 0x109FF),
  (0x10A40, 0x10A48), (0x10A7D, 0x10A7E), (0x10A9D, 0x10A9F), (0x10AEB, 0x10AEF),
  (0x10B58, 0x10B5F), (0x10B78, 0x10B7F), (0x10BA9, 0x10BAF), (0x10CFA, 0x10CFF),
  (0x10D30, 0x10D39), (0x10E60, 0x10E7E), (0x10F1D, 0x10F26), (0x10F51, 0x10F54),
  (0x10FC5, 0x10FCB), (0x11052, 0x1106F), (0x110F0, 0x110F9), (0x11136, 0x1113F),
  (0x111D0, 0x111D9), (0x111E1, 0x111F4), (0x112F0, 0x112F9), (0x11450, 0x11459),
  (0x114D0, 0x114D9), (0x11650, 0x11659), (0x116C0, 0x116C9), (0x11730, 0x1173B),
  (0x118E0, 0x118F2), (0x11950, 0x11959), (0x11C50, 0x11C6C), (0x11D50, 0x11D59),
  (0x11DA0, 0x11DA9), (0x11FC0, 0x11FD4), (0x12400, 0x1246E), (0x16A60, 0x16A69),
  (0x16AC0, 0x16AC9), (0x16B50, 0x16B59), (0x16B5B, 0x16B61), (0x16E80, 0x16E96),
  (0x1D2E0, 0x1D2F3), (0x1D360, 0x1D378), (0x1D7CE, 0x1D7FF), (0x1E140, 0x1E149),
  (0x1E2F0, 0x1E2F9), (0x1E8C7, 0x1E8CF), (0x1E950, 0x1E959), (0x1EC71, 0x1ECAB),
  (0x1ECAD, 0x1ECAF), (0x1ECB1, 0x1ECB4), (0x1ED01, 0x1ED2D), (0x1ED2F, 0x1ED3D),
  (0x1F100, 0x1F10C), (0x1FBF0, 0x1FBF9)]

/-- Model of Rust `char::is_numeric`: true exactly on the Unicode
general categories `Nd`, `Nl` and `No`, via the `numericRanges`
table. -/
def rustIsNumeric (c : Char) : Bool :=
  numericRanges.any (fun r => inRange c.toNat r.1 r.2)

/-- Model of Rust `char::to_digit(10)`: defined exactly on the ASCII
digits `0`-`9`. -/
def toDigit10 (c : Char) : Option Nat :=
  if '0' ≤ c && c ≤ '9' then some (c.toNat - '0'.toNat) else none

/-- Model of `Lexer::next_whitespaces`: drop leading characters satisfying
`is_ascii_whitespace`. -/
def skipWs : List Char → List Char
  | [] => []
  | c :: rest => if isAsciiWhitespace c then skipWs rest else c :: rest

/-- Model of `HashMap::insert`: overwrite the binding for an existing key,
otherwise add a new one. -/
def insertKV (k : String) (v : JsonValue) :
    List (String × JsonValue) → List (String × JsonValue)
  | [] => [(k, v)]
  | (k₂, v₂) :: rest => if k₂ = k then (k, v) :: rest else (k₂, v₂) :: insertKV k v rest

/-- Lookup in the association list modelling the object map. -/
def lookupKV (k : String) : List (String × JsonValue) → Option JsonValue
  | [] => none
  | (k₂, v₂) :: rest => if k₂ = k then some v₂ else lookupKV k rest

/-- Model of `Lexer::expect_next`.  The source loop compares
`expect_iter.peek()` with `input.peek()` and advances both while they are
equal; when both iterators are exhausted the two peeks are equal `None`s,
so the loop never exits — that diverging case is `none` here. -/
def expectNext : List Char → List Char → Option (Bool × List Char)
  | [], [] => none
  | [], c :: cs => some (true, c :: cs)
  | _ :: _, [] => some (false, [])
  | e :: es, c :: cs => if e = c then expectNext es cs else some (false, c :: cs)

/-- The loop of `Lexer::next_string` (the opening quote has already been
consumed by the caller-side `tail`): collect characters verbatim until a
closing quote, erroring at end of input. -/
def nextStringAux : List Char → String → Except NextValueError (String × List Char)
  | [], _ => .error (.parseError "unexpected EOF while parsing string")
  | c :: rest, acc =>
    if c = '"' then .ok (acc, rest) else nextStringAux rest (acc.push c)

/-- Model of `Lexer::next_string`: consume the opening quote, then run the loop. -/
def nextString (s : List Char) : Except NextValueError (String × List Char) :=
  nextStringAux s.tail ""

/-- Model of `format!("{:#?}", e)` on a `NextValueError` (pretty debug
formatting of the enum; the messages involved contain no characters that
the `Debug` impl would escape). -/
def debugFmt : NextValueError → String
  | .eof => "Eof"
  | .parseError msg => "ParseError(\n    \"" ++ msg ++ "\",\n)"

/-- The computation after the loop of `Lexer::next_number`: negate if a
minus was seen, multiply by the fractional multiplier, and only then
apply the exponent scaling (`f64::powi(10.0, scientific_exponent as i32)`,
multiplying when the exponent sign was positive and dividing when
negative).  `toI32 ex` transcribes the `as i32` cast of the `u32`
exponent counter. -/
def toI32 (n : Nat) : Int :=
  if n < 2147483648 then (n : Int) else (n : Int) - 4294967296

def numFinish (neg sci pos : Bool) (num mult : Frac) (ex : Nat) : Frac :=
  let num₂ := if neg then num.neg else num
  if !sci then num₂.mul mult
  else
    let exponent := Frac.pow10 (toI32 ex)
    if pos then (num₂.mul mult).mul exponent else (num₂.mul mult).div exponent

/-- The loop of `Lexer::next_number`.  Arguments after the input mirror
the source's mutable locals: `is_negative`, `is_scientific_notation`,
`holds_value`, `is_decimal_part`, `is_positive_scientific_exponential`,
`num`, `decimal_mult`, `scientific_exponent` (a `u32`, so updates wrap
modulo `2^32`).  The digit branch's `to_digit(10).unwrap()` panics when
the character is numeric but not an ASCII digit; that panic is `none`. -/
def numLoop : Nat → List Char → Bool → Bool → Bool → Bool → Bool → Frac → Frac → Nat →
    Option (Except NextValueError (Frac × List Char))
  | 0, _, _, _, _, _, _, _, _, _ => none
  | fuel + 1, s, neg, sci, holds, dec, pos, num, mult, ex =>
    match s with
    | [] =>
      if holds then some (.ok (numFinish neg sci pos num mult ex, []))
      else some (.error (.parseError "expected number got EOF"))
    | c :: rest =>
      if c = '.' then
        if dec then some (.error (.parseError "unexpected punto"))
        else numLoop fuel rest neg sci holds true pos num mult ex
      else if c = '-' then
        if neg then some (.error (.parseError "double negative"))
        else numLoop fuel rest true sci holds dec pos num mult ex
      else if c = 'e' || c = 'E' then
        match rest with
        | [] => some (.error (.parseError "bad science"))
        | d :: rest₂ =>
          if d = '+' then numLoop fuel rest₂ neg true holds dec true num mult ex
          else if rustIsNumeric d then numLoop fuel (d :: rest₂) neg true holds dec true num mult ex
          else if d = '-' then numLoop fuel rest₂ neg true holds dec false num mult ex
          else some (.error (.parseError "bad science"))
      else if rustIsNumeric c then
        match toDigit10 c with
        | none => none
        | some d =>
          if sci then
            numLoop fuel rest neg sci holds dec pos num mult ((ex * 10 + d) % 4294967296)
          else
            numLoop fuel rest neg sci true dec pos ((num.mul (Frac.ofNat 10)).add (Frac.ofNat d))
              (if dec then mult.mul Frac.tenth else mult) ex
      else if c = ',' || c = ']' || c = '}' || rustIsWhitespace c then
        if holds then some (.ok (numFinish neg sci pos num mult ex, c :: rest))
        else some (.error (.parseError "expected number got EOF"))
      else some (.error (.parseError ("unexpected character: " ++ c.toString)))

/-- Model of `Lexer::next_number`: run the loop from the initial flag values of
the source.  Every loop iteration consumes at least one input character,
so the budget `s.length + 1` is never exhausted (`numLoop_fuel` below
shows the result is the same for any budget larger than the input). -/
def nextNumber (s : List Char) : Option (Except NextValueError (Frac × List Char)) :=
  numLoop (s.length + 1) s false false false false true ⟨0, 1⟩ ⟨1, 1⟩ 0

/-- The three keyword arms of `Lexer::next_value`:
`expect_next(lit) && validate_residuals()` yields the value, anything
else the arm's `ParseError`.  `validate_residuals` skips whitespace and
peeks: the residual must be end of input, `,`, `}` or `]`. -/
def litCase (lit : List Char) (v : JsonValue) (msg : String) (s : List Char) :
    Option (Except NextValueError (JsonValue × List Char)) :=
  match expectNext lit s with
  | none => none
  | some (matched, s₂) =>
    if matched then
      match skipWs s₂ with
      | [] => some (.ok (v, []))
      | c :: rest =>
        if c = ',' || c = '}' || c = ']' then some (.ok (v, c :: rest))
        else some (.error (.parseError msg))
    else some (.error (.parseError msg))

mutual

/-- Model of `Lexer::next_value`: skip whitespace, peek one character and
dispatch.  The number route wraps the sub-parser's error in a fresh
`ParseError` built with `format!("parse number error: {:#?}", e)`; the
object, array and string routes pass errors through unchanged. -/
def nextValue : Nat → List Char → Option (Except NextValueError (JsonValue × List Char))
  | 0, _ => none
  | fuel + 1, s =>
    match skipWs s with
    | [] => some (.error .eof)
    | c :: rest =>
      if c = '-' || rustIsNumeric c then
        match nextNumber (c :: rest) with
        | none => none
        | some (.ok (n, s₂)) => some (.ok (.number n, s₂))
        | some (.error e) =>
          some (.error (.parseError ("parse number error: " ++ debugFmt e)))
      else if c = '{' then
        match objLoop fuel true false true false false false "" [] rest with
        | none => none
        | some (.ok (m, s₂)) => some (.ok (.object m, s₂))
        | some (.error e) => some (.error e)
      else if c = '[' then
        match arrLoop fuel true false true false [] rest with
        | none => none
        | some (.ok (vs, s₂)) => some (.ok (.array vs, s₂))
        | some (.error e) => some (.error e)
      else if c = '"' then
        match nextStringAux rest "" with
        | .ok (str, s₂) => some (.ok (.string str, s₂))
        | .error e => some (.error e)
      else if c = 'n' then litCase "null".data .null "Got invalid identifier 1" (c :: rest)
      else if c = 'f' then litCase "false".data (.boolean false) "Got invalid identifier 2" (c :: rest)
      else if c = 't' then litCase "true".data (.boolean true) "Got invalid identifier 3" (c :: rest)
      else some (.error (.parseError ("unexpected character: " ++ c.toString)))

/-- The loop of `Lexer::next_array`; the boolean arguments are
`accepts_closing`, `accepts_comma`, `accepts_value`, `last_was_comma`. -/
def arrLoop : Nat → Bool → Bool → Bool → Bool → List JsonValue → List Char →
    Option (Except NextValueError (List JsonValue × List Char))
  | 0, _, _, _, _, _, _ => none
  | fuel + 1, closing, comma, value, lwComma, values, s =>
    match skipWs s with
    | [] => some (.error (.parseError "unexpected EOF while parsing array"))
    | c :: rest =>
      if c = ']' then
        if lwComma then some (.error (.parseError "trailing comma"))
        else if !closing then some (.error (.parseError "unexpected \x27]\x27"))
        else some (.ok (values, rest))
      else if c = ',' then
        if !comma then some (.error (.parseError "unexpected comma"))
        else arrLoop fuel false false true true values rest
      else
        if !value then some (.error (.parseError "unexpected value"))
        else
          match nextValue fuel (c :: rest) with
          | none => none
          | some (.ok (v, s₂)) => arrLoop fuel true true false false (values ++ [v]) s₂
          | some (.error e) => some (.error e)

/-- The loop of `Lexer::next_object`; the boolean arguments are
`accepts_closing`, `accepts_comma`, `accepts_key`, `accepts_value`,
`last_was_comma`, `last_was_colon`, followed by `last_key` and the
accumulated map.  Note that the source's end-of-input message inside the
object loop also says "array". -/
def objLoop : Nat → Bool → Bool → Bool → Bool → Bool → Bool → String →
    List (String × JsonValue) → List Char →
    Option (Except NextValueError (List (String × JsonValue) × List Char))
  | 0, _, _, _, _, _, _, _, _, _ => none
  | fuel + 1, closing, comma, key, value, lwComma, lwColon, lastKey, map, s =>
    match skipWs s with
    | [] => some (.error (.parseError "unexpected EOF while parsing array"))
    | c :: rest =>
      if c = '}' then
        if lwComma then some (.error (.parseError "trailing comma"))
        else if !closing then some (.error (.parseError "unexpected \x27\x7d\x27"))
        else some (.ok (map, rest))
      else if c = ',' then
        if !comma then some (.error (.parseError "unexpected comma"))
        else objLoop fuel false false true false true false lastKey map rest
      else if c = ':' then
        if lwComma || !value || lwColon then
          some (.error (.parseError "unexpected colon"))
        else objLoop fuel closing comma key value lwComma true lastKey map rest
      else
        match nextValue fuel (c :: rest) with
        | none => none
        | some (.error e) => some (.error e)
        | some (.ok (.string k, s₂)) =>
          if key then objLoop fuel false false false true false false k map s₂
          else objLoop fuel true true true false false false lastKey
            (insertKV lastKey (.string k) map) s₂
        | some (.ok (v, s₂)) =>
          if !value then some (.error (.parseError "unexpected value"))
          else objLoop fuel true true true false false false lastKey
            (insertKV lastKey v map) s₂

end

/-- Model of `Lexer::next_object`: blindly consume the opening brace, then run the
loop from the initial state of the source. -/
def nextObject (fuel : Nat) (s : List Char) :
    Option (Except NextValueError (List (String × JsonValue) × List Char)) :=
  objLoop fuel true false true false false false "" [] s.tail

/-- Model of `Lexer::next_array`: blindly consume the opening bracket, then run
the loop from the initial state of the source. -/
def nextArray (fuel : Nat) (s : List Char) :
    Option (Except NextValueError (List JsonValue × List Char)) :=
  arrLoop fuel true false true false [] s.tail

set_option maxHeartbeats 1600000 in
/-- Every iteration of the number loop consumes at least one character,
so any step budget larger than the input length computes the same
result; in particular the budget `s.length + 1` used by `nextNumber`
faithfully reproduces the source's unbounded loop. -/
theorem numLoop_fuel (f₁ f₂ : Nat) (s : List Char) (neg sci holds dec pos : Bool)
    (num mult : Frac) (ex : Nat) (h₁ : s.length < f₁) (h₂ : s.length < f₂) :
    numLoop f₁ s neg sci holds dec pos num mult ex =
      numLoop f₂ s neg sci holds dec pos num mult ex := by
  induction f₁ generalizing f₂ s neg sci holds dec pos num mult ex with
  | zero => omega
  | succ g ih =>
    cases f₂ with
    | zero => omega
    | succ k =>
      cases s with
      | nil => rfl
      | cons c rest =>
        simp only [List.length_cons] at h₁ h₂
        cases rest with
        | nil =>
          simp only [numLoop]
          split_ifs <;>
            first
            | rfl
            | exact ih _ _ _ _ _ _ _ _ _ _
                (by simp only [List.length_nil]; omega)
                (by simp only [List.length_nil]; omega)
            | (split <;>
                first
                | rfl
                | exact ih _ _ _ _ _ _ _ _ _ _
                    (by simp only [List.length_nil]; omega)
                    (by simp only [List.length_nil]; omega))
        | cons d rest₂ =>
          simp only [List.length_cons] at h₁ h₂
          simp only [numLoop]
          split_ifs <;>
            first
            | rfl
            | exact ih _ _ _ _ _ _ _ _ _ _ (by omega) (by omega)
            | exact ih _ _ _ _ _ _ _ _ _ _
                (by simp only [List.length_cons]; omega)
                (by simp only [List.length_cons]; omega)
            | (split <;>
                first
                | rfl
                | exact ih _ _ _ _ _ _ _ _ _ _
                    (by simp only [List.length_cons]; omega)
                    (by simp only [List.length_cons]; omega))

theorem skipWs_append (w l : List Char) (hw : ∀ c ∈ w, isAsciiWhitespace c = true) :
    skipWs (w ++ l) = skipWs l := by
  induction w with
  | nil => rfl
  | cons c w ih =>
    have hc := hw c (List.mem_cons_self c w)
    simp only [List.cons_append, skipWs, hc, if_true]
    exact ih (fun d hd => hw d (List.mem_cons_of_mem _ hd))

theorem skipWs_cons_not_ws (c : Char) (l : List Char) (hc : isAsciiWhitespace c = false) :
    skipWs (c :: l) = c :: l := by
  simp [skipWs, hc]

/-- Matching a literal against an input that starts with exactly that
literal and continues non-emptily succeeds and leaves the continuation
unconsumed. -/
theorem expectNext_append (lit l : List Char) (hl : l ≠ []) :
    expectNext lit (lit ++ l) = some (true, l) := by
  induction lit with
  | nil =>
    cases l with
    | nil => exact absurd rfl hl
    | cons c cs => rfl
  | cons e es ih => simpa [expectNext] using ih

theorem Frac.toRat_mul (a b : Frac) : (a.mul b).toRat = a.toRat * b.toRat := by
  simp only [Frac.mul, Frac.toRat, Int.cast_mul, Nat.cast_mul]
  rw [div_mul_div_comm]

theorem Frac.toRat_neg (a : Frac) : a.neg.toRat = -a.toRat := by
  simp [Frac.neg, Frac.toRat, neg_div]

theorem Frac.toRat_add (a b : Frac) (ha : a.den ≠ 0) (hb : b.den ≠ 0) :
    (a.add b).toRat = a.toRat + b.toRat := by
  have ha' : (a.den : ℚ) ≠ 0 := Nat.cast_ne_zero.mpr ha
  have hb' : (b.den : ℚ) ≠ 0 := Nat.cast_ne_zero.mpr hb
  simp only [Frac.add, Frac.toRat]
  push_cast
  field_simp

theorem lookupKV_insertKV (k : String) (v : JsonValue) (m : List (String × JsonValue)) :
    lookupKV k (insertKV k v m) = some v := by
  induction m with
  | nil => simp [insertKV, lookupKV]
  | cons p m ih =>
    obtain ⟨k₂, v₂⟩ := p
    by_cases h : k₂ = k
    · simp [insertKV, h, lookupKV]
    · simp [insertKV, h, lookupKV, ih]

theorem mem_keys_insertKV (x k : String) (v : JsonValue) (m : List (String × JsonValue)) :
    x ∈ (insertKV k v m).map Prod.fst ↔ x = k ∨ x ∈ m.map Prod.fst := by
  induction m with
  | nil => simp [insertKV]
  | cons p m ih =>
    obtain ⟨k₂, v₂⟩ := p
    rw [insertKV]
    by_cases h : k₂ = k
    · rw [if_pos h]
      subst h
      simp only [List.map_cons, List.mem_cons]
      tauto
    · rw [if_neg h]
      simp only [List.map_cons, List.mem_cons, ih]
      tauto

theorem insertKV_nodup (k : String) (v : JsonValue) (m : List (String × JsonValue))
    (h : (m.map Prod.fst).Nodup) : ((insertKV k v m).map Prod.fst).Nodup := by
  induction m with
  | nil => simp [insertKV]
  | cons p m ih =>
    obtain ⟨k₂, v₂⟩ := p
    simp only [List.map_cons, List.nodup_cons] at h
    rw [insertKV]
    by_cases hk : k₂ = k
    · rw [if_pos hk]
      subst hk
      simp only [List.map_cons, List.nodup_cons]
      exact h
    · rw [if_neg hk]
      simp only [List.map_cons, List.nodup_cons]
      refine ⟨?_, ih h.2⟩
      rw [mem_keys_insertKV]
      rintro (rfl | hmem)
      · exact hk rfl
      · exact h.1 hmem

/-- Any object map returned by the object-parser loop has no duplicate
keys, provided the accumulator it started from had none: every insertion
goes through `insertKV`, which overwrites an existing binding instead of
adding a second one. -/
theorem objLoop_nodup (fuel : Nat) : ∀ (cl cm ky vl lwc lwcol : Bool) (lastKey : String)
    (map : List (String × JsonValue)) (s : List Char)
    (m : List (String × JsonValue)) (s₂ : List Char),
    (map.map Prod.fst).Nodup →
    objLoop fuel cl cm ky vl lwc lwcol lastKey map s = some (.ok (m, s₂)) →
    (m.map Prod.fst).Nodup := by
  induction fuel with
  | zero =>
    intro cl cm ky vl lwc lwcol lastKey map s m s₂ hnd h
    simp [objLoop] at h
  | succ f ih =>
    intro cl cm ky vl lwc lwcol lastKey map s m s₂ hnd h
    rw [objLoop] at h
    split at h
    · simp at h
    · split_ifs at h <;>
        first
        | ((simp only [Option.some.injEq, Except.ok.injEq, Prod.mk.injEq,
              reduceCtorEq] at h) <;> exact h.1 ▸ hnd)
        | exact ih _ _ _ _ _ _ _ _ _ _ _ hnd h
        | exact ih _ _ _ _ _ _ _ _ _ _ _ (insertKV_nodup _ _ _ hnd) h
        | (split at h <;>
            first
            | simp at h
            | exact ih _ _ _ _ _ _ _ _ _ _ _ hnd h
            | exact ih _ _ _ _ _ _ _ _ _ _ _ (insertKV_nodup _ _ _ hnd) h)

/-- Claim C1: the Number Parser applies sign and fraction before
exponent scaling: `-1.5e3` parses to -1500.0, `2E-2` to 0.02, `0` to
0.0 and `007` to 7.0 (leading zeros accepted). -/
theorem C1_number_values :
    nextValue 1 "-1.5e3".data = some (.ok (.number ⟨-15000, 10⟩, [])) ∧
    Frac.toRat ⟨-15000, 10⟩ = -1500 ∧
    nextValue 1 "2E-2".data = some (.ok (.number ⟨2, 100⟩, [])) ∧
    Frac.toRat ⟨2, 100⟩ = 0.02 ∧
    nextValue 1 "0".data = some (.ok (.number ⟨0, 1⟩, [])) ∧
    Frac.toRat ⟨0, 1⟩ = 0 ∧
    nextValue 1 "007".data = some (.ok (.number ⟨7, 1⟩, [])) ∧
    Frac.toRat ⟨7, 1⟩ = 7 := by
  refine ⟨rfl, ?_, rfl, ?_, rfl, ?_, rfl, ?_⟩ <;> norm_num [Frac.toRat]

/-- Claim C3 counterexample: a `-` encountered after digits is accepted
silently and negates the result — `1-2` parses to -12 rather than
failing. -/
theorem C3_minus_after_digits_accepted :
    nextNumber "1-2".data = some (.ok (⟨-12, 1⟩, [])) ∧
    Frac.toRat ⟨-12, 1⟩ = -12 ∧
    nextValue 1 "1-2".data = some (.ok (.number ⟨-12, 1⟩, [])) := by
  refine ⟨rfl, ?_, rfl⟩
  norm_num [Frac.toRat]

/-- Claim C3 (amended): a `-` in the mantissa is legal at most once, at
any position — a second `-` fails with the DoubleNegative error, while a
single `-` is accepted even after digits (`1-2` parses to -12, like
`-12`). -/
theorem C3_minus_once_anywhere :
    nextNumber "--1".data = some (.error (.parseError "double negative")) ∧
    nextNumber "-1".data = some (.ok (⟨-1, 1⟩, [])) ∧
    nextNumber "1-2".data = some (.ok (⟨-12, 1⟩, [])) :=
  ⟨rfl, rfl, rfl⟩

/-- Claim C5: a literal followed by a legal terminator (`,`, `}`, `]`,
or whitespace before end of input) parses to its value and a bad
residual fails — but a literal ending exactly at end of input makes
`expect_next` loop forever (both peeks are `None` and compare equal), so
parsing the bare inputs `true`, `false`, `null` never returns. -/
theorem C5_literal_terminators :
    nextValue 1 "true".data = none ∧
    nextValue 1 "false".data = none ∧
    nextValue 1 "null".data = none ∧
    nextValue 1 "true ".data = some (.ok (.boolean true, [])) ∧
    nextValue 1 "false,1".data = some (.ok (.boolean false, ",1".data)) ∧
    nextValue 1 " null ".data = some (.ok (.null, [])) ∧
    nextValue 1 "truex".data = some (.error (.parseError "Got invalid identifier 3")) :=
  ⟨rfl, rfl, rfl, rfl, rfl, rfl, rfl⟩

/-- Claim C7: `[]` parses to the empty sequence, `{}` to the empty
mapping, and trailing commas fail with the trailing-comma error. -/
theorem C7_empty_and_trailing_comma :
    nextValue 2 "[]".data = some (.ok (.array [], [])) ∧
    nextValue 2 "\x7b\x7d".data = some (.ok (.object [], [])) ∧
    nextValue 8 "[1,]".data = some (.error (.parseError "trailing comma")) ∧
    nextValue 8 "\x7b\"a\":1,\x7d".data = some (.error (.parseError "trailing comma")) :=
  ⟨rfl, rfl, rfl, rfl⟩

/-- Claim C9: the digit branch of the Number Parser accepts every
`char::is_numeric` character but `to_digit(10)` is defined only on
ASCII digits, so a non-ASCII numeric character such as U+0665 makes the
`unwrap` panic (modelled as `none`): `next_value` is not total. -/
theorem C9_digit_branch_panics :
    rustIsNumeric (Char.ofNat 0x665) = true ∧
    toDigit10 (Char.ofNat 0x665) = none ∧
    nextNumber [Char.ofNat 0x665] = none ∧
    nextValue 1 [Char.ofNat 0x665] = none :=
  ⟨rfl, rfl, rfl, rfl⟩

/-- Claim C10: the Object Parser never requires a colon between a key
and its value (`{"a" 1}` parses like `{"a":1}`), and only misplaced
colons — after a comma, when no value is expected, or a second colon for
the same pair — are rejected. -/
theorem C10_colon_never_required :
    nextValue 16 "\x7b\"a\" 1\x7d".data = some (.ok (.object [("a", .number ⟨1, 1⟩)], [])) ∧
    nextValue 16 "\x7b\"a\":1\x7d".data = some (.ok (.object [("a", .number ⟨1, 1⟩)], [])) ∧
    Frac.toRat ⟨1, 1⟩ = 1 ∧
    nextValue 16 "\x7b:1\x7d".data = some (.error (.parseError "unexpected colon")) ∧
    nextValue 16 "\x7b\"a\"::1\x7d".data = some (.error (.parseError "unexpected colon")) ∧
    nextValue 16 "\x7b\"a\":1,:2\x7d".data = some (.error (.parseError "unexpected colon")) := by
  refine ⟨rfl, rfl, ?_, rfl, rfl, rfl⟩
  norm_num [Frac.toRat]

/-- Claim C2 counterexample: a syntactically valid non-string token in
key position does make the parse fail — a fully consumed non-string
"key" is rejected with the unexpected-value error, and a number directly
followed by `:` fails inside the Number Parser because `:` is not a
legal number terminator. -/
theorem C2_nonstring_key_fails :
    nextValue 16 "\x7b1 2\x7d".data = some (.error (.parseError "unexpected value")) ∧
    nextValue 16 "\x7btrue\x7d".data = some (.error (.parseError "unexpected value")) ∧
    nextValue 16 "\x7b1:2\x7d".data =
      some (.error (.parseError
        "parse number error: ParseError(\n    \"unexpected character: :\",\n)")) :=
  ⟨rfl, rfl, rfl⟩

/-- Claim C8 counterexample: the dispatcher does not propagate the
Number Parser's error unchanged — it wraps it in a fresh `ParseError`
whose message embeds the debug rendering of the original. -/
theorem C8_number_error_wrapped :
    nextNumber "--1".data = some (.error (.parseError "double negative")) ∧
    nextValue 1 "--1".data =
      some (.error (.parseError
        "parse number error: ParseError(\n    \"double negative\",\n)")) ∧
    debugFmt (.parseError "double negative") = "ParseError(\n    \"double negative\",\n)" :=
  ⟨rfl, rfl, rfl⟩

/-- Claim C6: duplicate keys at the same nesting level keep only the
last occurring value (`{"a":1,"a":2}` parses to the one-entry mapping
`a ↦ 2.0`), `insert` overwrites the binding for an existing key, and
every map the object loop returns has pairwise distinct keys. -/
theorem C6_last_key_wins :
    nextValue 16 "\x7b\"a\":1,\"a\":2\x7d".data =
      some (.ok (.object [("a", .number ⟨2, 1⟩)], [])) ∧
    Frac.toRat ⟨2, 1⟩ = 2 ∧
    (∀ (k : String) (v : JsonValue) (m : List (String × JsonValue)),
      lookupKV k (insertKV k v m) = some v) ∧
    (∀ (fuel : Nat) (cl cm ky vl lwc lwcol : Bool) (lastKey : String)
        (map : List (String × JsonValue)) (s : List Char)
        (m : List (String × JsonValue)) (s₂ : List Char),
      (map.map Prod.fst).Nodup →
      objLoop fuel cl cm ky vl lwc lwcol lastKey map s = some (.ok (m, s₂)) →
      (m.map Prod.fst).Nodup) := by
  refine ⟨rfl, ?_, lookupKV_insertKV, objLoop_nodup⟩
  norm_num [Frac.toRat]

/-- Witness for C6: the duplicate-key object itself, run through the
object loop starting from the empty accumulator. -/
theorem C6_last_key_wins_witness :
    lookupKV "a" (insertKV "a" (.number ⟨2, 1⟩) [("a", .number ⟨1, 1⟩)]) =
      some (.number ⟨2, 1⟩) ∧
    (List.map Prod.fst [("a", JsonValue.number ⟨2, 1⟩)]).Nodup := by
  refine ⟨C6_last_key_wins.2.2.1 "a" _ _, ?_⟩
  exact C6_last_key_wins.2.2.2 16 true false true false false false "" []
    "\"a\":1,\"a\":2\x7d".data [("a", .number ⟨2, 1⟩)] [] (by simp) rfl

/-- Claim C2 (amended): a syntactically valid non-string token in the
key position is consumed by the shared value dispatcher, but the object
parser then rejects it: since a value is not expected in key position
(`accepts_value` is false there), any successfully parsed non-string
token fails with the generic unexpected-value error; a keyword followed
by `:` already fails its residual check, and a number directly followed
by `:` fails inside the Number Parser. -/
theorem C2_nonstring_key_rejected :
    (∀ (fuel : Nat) (cl cm ky lwc lwcol : Bool) (lastKey : String)
        (map : List (String × JsonValue)) (s : List Char) (c : Char)
        (rest s₂ : List Char) (v : JsonValue),
      skipWs s = c :: rest → c ≠ '}' → c ≠ ',' → c ≠ ':' →
      nextValue fuel (c :: rest) = some (.ok (v, s₂)) →
      (∀ str, v ≠ .string str) →
      objLoop (fuel + 1) cl cm ky false lwc lwcol lastKey map s =
        some (.error (.parseError "unexpected value"))) ∧
    nextValue 16 "\x7bnull\x7d".data = some (.error (.parseError "unexpected value")) ∧
    nextValue 16 "\x7bnull:1\x7d".data = some (.error (.parseError "Got invalid identifier 1")) := by
  refine ⟨?_, rfl, rfl⟩
  intro fuel cl cm ky lwc lwcol lastKey map s c rest s₂ v hs hc1 hc2 hc3 hv hstr
  simp only [objLoop, hs, if_neg hc1, if_neg hc2, if_neg hc3, hv]
  cases v with
  | string str => exact absurd rfl (hstr str)
  | boolean b => rfl
  | number q => rfl
  | array vs => rfl
  | object fs => rfl
  | null => rfl

/-- Witness for the amended C2: the object body `1 }` — the number `1`
is consumed as a value token, then rejected because no value is
expected in key position. -/
theorem C2_nonstring_key_rejected_witness :
    objLoop 2 true false true false false false "" [] "1 \x7d".data =
      some (.error (.parseError "unexpected value")) :=
  C2_nonstring_key_rejected.1 1 true false true false false "" [] "1 \x7d".data
    '1' " \x7d".data " \x7d".data (.number ⟨1, 1⟩) rfl (by decide) (by decide) (by decide)
    rfl (fun str h => JsonValue.noConfusion h)

/-- Claim C4 (amended): after skipping whitespace the dispatcher routes
to the Number Parser exactly when the peeked character is `-` or
satisfies Rust's `char::is_numeric` — which also admits non-ASCII
numeric characters; an empty input fails with the end-of-input error and
any other character outside the routing table fails with the
unexpected-character error. -/
theorem C4_dispatch_routes :
    (∀ (f : Nat) (s : List Char), skipWs s = [] →
      nextValue (f + 1) s = some (.error .eof)) ∧
    (∀ (f : Nat) (s : List Char) (c : Char) (rest : List Char),
      skipWs s = c :: rest → (c = '-' || rustIsNumeric c) = true →
      (nextNumber (c :: rest) = none → nextValue (f + 1) s = none) ∧
      (∀ (n : Frac) (s₂ : List Char), nextNumber (c :: rest) = some (.ok (n, s₂)) →
        nextValue (f + 1) s = some (.ok (.number n, s₂))) ∧
      (∀ (e : NextValueError), nextNumber (c :: rest) = some (.error e) →
        nextValue (f + 1) s =
          some (.error (.parseError ("parse number error: " ++ debugFmt e))))) ∧
    (∀ (f : Nat) (s : List Char) (c : Char) (rest : List Char),
      skipWs s = c :: rest → (c = '-' || rustIsNumeric c) = false →
      c ≠ '{' → c ≠ '[' → c ≠ '"' → c ≠ 'n' → c ≠ 'f' → c ≠ 't' →
      nextValue (f + 1) s =
        some (.error (.parseError ("unexpected character: " ++ c.toString)))) := by
  refine ⟨?_, ?_, ?_⟩
  · intro f s hs
    simp only [nextValue, hs]
  · intro f s c rest hs hc
    refine ⟨?_, ?_, ?_⟩
    · intro hn
      simp only [nextValue, hs, if_pos hc, hn]
    · intro n s₂ hn
      simp only [nextValue, hs, if_pos hc, hn]
    · intro e hn
      simp only [nextValue, hs, if_pos hc, hn]
  · intro f s c rest hs hc h1 h2 h3 h4 h5 h6
    have hc' : ¬((c = '-' || rustIsNumeric c) = true) := by simp [hc]
    simp only [nextValue, hs, if_neg hc', if_neg h1, if_neg h2, if_neg h3, if_neg h4,
      if_neg h5, if_neg h6]

/-- Witness for the amended C4, exercising the end-of-input, routing
(ok, error, and the panic both on a decimal digit U+0665 and on the
`No`-category character U+00B2) and unexpected-character cases. -/
theorem C4_dispatch_routes_witness :
    nextValue 1 ([] : List Char) = some (.error .eof) ∧
    nextValue 1 ['7'] = some (.ok (.number ⟨7, 1⟩, [])) ∧
    nextValue 1 [Char.ofNat 0x665] = none ∧
    nextValue 1 [Char.ofNat 0xB2] = none ∧
    nextValue 1 ['-'] = some (.error (.parseError
      ("parse number error: " ++ debugFmt (.parseError "expected number got EOF")))) ∧
    nextValue 1 ['x'] = some (.error (.parseError
      ("unexpected character: " ++ 'x'.toString))) := by
  refine ⟨?_, ?_, ?_, ?_, ?_, ?_⟩
  · exact C4_dispatch_routes.1 0 [] rfl
  · exact (C4_dispatch_routes.2.1 0 ['7'] '7' [] rfl rfl).2.1 ⟨7, 1⟩ [] rfl
  · exact (C4_dispatch_routes.2.1 0 [Char.ofNat 0x665] (Char.ofNat 0x665) [] rfl rfl).1 rfl
  · exact (C4_dispatch_routes.2.1 0 [Char.ofNat 0xB2] (Char.ofNat 0xB2) [] rfl rfl).1 rfl
  · exact (C4_dispatch_routes.2.1 0 ['-'] '-' [] rfl rfl).2.2
      (.parseError "expected number got EOF") rfl
  · exact C4_dispatch_routes.2.2 0 ['x'] 'x' [] rfl rfl (by decide) (by decide)
      (by decide) (by decide) (by decide) (by decide)

/-- Claim C4 counterexample: U+0665 (Arabic-Indic digit five, category
`Nd`) and U+00B2 (superscript two, category `No`) are neither `-` nor
ASCII digits and are outside the claimed routing table, yet the
dispatcher does not fail with the unexpected-character error on either —
it routes both to the Number Parser, whose digit branch then panics
(`none`), because the routing guard is Rust's Unicode
`char::is_numeric`. -/
theorem C4_unicode_digit_routed :
    (Char.ofNat 0x665).isDigit = false ∧
    (decide (Char.ofNat 0x665 = '-')) = false ∧
    rustIsNumeric (Char.ofNat 0x665) = true ∧
    nextValue 1 [Char.ofNat 0x665] = none ∧
    (Char.ofNat 0xB2).isDigit = false ∧
    (decide (Char.ofNat 0xB2 = '-')) = false ∧
    rustIsNumeric (Char.ofNat 0xB2) = true ∧
    nextValue 1 [Char.ofNat 0xB2] = none :=
  ⟨rfl, rfl, rfl, rfl, rfl, rfl, rfl, rfl⟩

/-- Claim C8 (amended): the first error anywhere aborts the whole parse
and is returned to the caller; object, array and string sub-parser
errors propagate unchanged through the dispatcher and through the
array/object loops, while a Number Parser error is wrapped by the
dispatcher into a fresh `ParseError` embedding the original's debug
rendering. -/
theorem C8_first_error_aborts :
    (∀ (f : Nat) (s rest : List Char) (e : NextValueError),
      skipWs s = '{' :: rest → nextObject f ('{' :: rest) = some (.error e) →
      nextValue (f + 1) s = some (.error e)) ∧
    (∀ (f : Nat) (s rest : List Char) (e : NextValueError),
      skipWs s = '[' :: rest → nextArray f ('[' :: rest) = some (.error e) →
      nextValue (f + 1) s = some (.error e)) ∧
    (∀ (f : Nat) (s rest : List Char) (e : NextValueError),
      skipWs s = '"' :: rest → nextString ('"' :: rest) = .error e →
      nextValue (f + 1) s = some (.error e)) ∧
    (∀ (f : Nat) (s : List Char) (c : Char) (rest : List Char) (e : NextValueError),
      skipWs s = c :: rest → (c = '-' || rustIsNumeric c) = true →
      nextNumber (c :: rest) = some (.error e) →
      nextValue (f + 1) s =
        some (.error (.parseError ("parse number error: " ++ debugFmt e)))) ∧
    (∀ (fuel : Nat) (cl cm lwc : Bool) (values : List JsonValue) (s : List Char)
        (c : Char) (rest : List Char) (e : NextValueError),
      skipWs s = c :: rest → c ≠ ']' → c ≠ ',' →
      nextValue fuel (c :: rest) = some (.error e) →
      arrLoop (fuel + 1) cl cm true lwc values s = some (.error e)) ∧
    (∀ (fuel : Nat) (cl cm ky vl lwc lwcol : Bool) (lastKey : String)
        (map : List (String × JsonValue)) (s : List Char) (c : Char)
        (rest : List Char) (e : NextValueError),
      skipWs s = c :: rest → c ≠ '}' → c ≠ ',' → c ≠ ':' →
      nextValue fuel (c :: rest) = some (.error e) →
      objLoop (fuel + 1) cl cm ky vl lwc lwcol lastKey map s = some (.error e)) := by
  refine ⟨?_, ?_, ?_, ?_, ?_, ?_⟩
  · intro f s rest e hs hobj
    have hobj' : objLoop f true false true false false false "" [] rest = some (.error e) := hobj
    simp only [nextValue, hs, hobj']
    rfl
  · intro f s rest e hs harr
    have harr' : arrLoop f true false true false [] rest = some (.error e) := harr
    simp only [nextValue, hs, harr']
    rfl
  · intro f s rest e hs hstr
    have hstr' : nextStringAux rest "" = .error e := hstr
    simp only [nextValue, hs, hstr']
    rfl
  · intro f s c rest e hs hc hn
    simp only [nextValue, hs, if_pos hc, hn]
  · intro fuel cl cm lwc values s c rest e hs hc1 hc2 hv
    simp only [arrLoop, hs, if_neg hc1, if_neg hc2, hv]
    rfl
  · intro fuel cl cm ky vl lwc lwcol lastKey map s c rest e hs hc1 hc2 hc3 hv
    simp only [objLoop, hs, if_neg hc1, if_neg hc2, if_neg hc3, hv]

/-- Witness for the amended C8, exercising error propagation through
each route and the number-error wrapping at concrete inputs. -/
theorem C8_first_error_aborts_witness :
    nextValue 2 "\x7b,\x7d".data = some (.error (.parseError "unexpected comma")) ∧
    nextValue 2 "[,]".data = some (.error (.parseError "unexpected comma")) ∧
    nextValue 1 "\"ab".data =
      some (.error (.parseError "unexpected EOF while parsing string")) ∧
    nextValue 1 "--1".data = some (.error (.parseError
      ("parse number error: " ++ debugFmt (.parseError "double negative")))) ∧
    arrLoop 2 true false true false [] "x]".data =
      some (.error (.parseError "unexpected character: x")) ∧
    objLoop 2 true false true false false false "" [] "x\x7d".data =
      some (.error (.parseError "unexpected character: x")) := by
  refine ⟨?_, ?_, ?_, ?_, ?_, ?_⟩
  · exact C8_first_error_aborts.1 1 "\x7b,\x7d".data ",\x7d".data
      (.parseError "unexpected comma") rfl rfl
  · exact C8_first_error_aborts.2.1 1 "[,]".data ",]".data
      (.parseError "unexpected comma") rfl rfl
  · exact C8_first_error_aborts.2.2.1 0 "\"ab".data "ab".data
      (.parseError "unexpected EOF while parsing string") rfl rfl
  · exact C8_first_error_aborts.2.2.2.1 0 "--1".data '-' "-1".data
      (.parseError "double negative") rfl rfl rfl
  · exact C8_first_error_aborts.2.2.2.2.1 1 true false false [] "x]".data
      'x' "]".data (.parseError "unexpected character: x") rfl (by decide) (by decide) rfl
  · exact C8_first_error_aborts.2.2.2.2.2 1 true false true false false false "" []
      "x\x7d".data 'x' "\x7d".data (.parseError "unexpected character: x") rfl (by decide)
      (by decide) (by decide) rfl

end Jessy
